import Mathlib

/-!
# Verification of `cmd/otlp.go` (php-fpm_exporter)

The file `cmd/otlp.go` contains one HTTP handler, `errorsHandler`, which reads a
request body, decodes it as a `PHPError`, and records one tracing span through
the OpenTelemetry API before answering `200 error traced`.

The handler is embedded as a function from a request to the ordered sequence
of calls it performs on its collaborators (the response writer, the span, the
logger, the request body).  `defer` is modelled by an explicit stack of
postponed calls that run, most recent first, when the function returns.
The response and the recorded spans are obtained by replaying that call
sequence against small models of `http.ResponseWriter` and of a recording
span.  `json.Unmarshal` is library code and is taken as a parameter.

The handler is also embedded as a transformer of the state it runs in
(`errorsHandlerState`): the process state left by `init`, where the tracer
provider is installed or not, and the response writer of the request.  With
no provider installed the tracer is a no-op and span calls record nothing.
-/

set_option maxRecDepth 100000

namespace PhpFpmExporter

/-! ## Data model -/

/-- Go byte slices. -/
abbrev Bytes := List UInt8

/-- The record `PHPError` of `cmd/otlp.go` (lines 19-27). -/
structure PHPError where
  ErrorClass : String := ""
  Message : String := ""
  FilePath : String := ""
  Line : Int := 0
  Trace : String := ""
  RequestURL : String := ""
  Timestamp : Int := 0
  deriving DecidableEq, Repr

/-- The value of `var phpError PHPError`: every field at its zero value. -/
def PHPError.zero : PHPError := {}

/-- What `io.ReadAll(r.Body)` returns for a request: the bytes read and the
error, `none` standing for `nil`. -/
structure Request where
  body : Bytes
  err : Option String
  deriving DecidableEq, Repr

/-- The signature of `json.Unmarshal(body, &phpError)`: it receives the bytes
and the current value of the target, and returns the target after decoding
together with the error (`none` for `nil`). -/
abbrev Unmarshal := Bytes → PHPError → PHPError × Option String

/-! ## Tracing values -/

/-- Attribute values used by the handler (`attribute.String`, `attribute.Int`). -/
inductive Value where
  | str (s : String)
  | int (i : Int)
  deriving DecidableEq, Repr

/-- An attribute: a key with its value. -/
structure KeyValue where
  key : String
  value : Value
  deriving DecidableEq, Repr

/-- The constructor `attribute.String`. -/
def attribute_String (k v : String) : KeyValue := ⟨k, Value.str v⟩

/-- The constructor `attribute.Int`. -/
def attribute_Int (k : String) (v : Int) : KeyValue := ⟨k, Value.int v⟩

/-- The helper `semconv.ExceptionType` (semconv v1.17.0). -/
def semconv_ExceptionType (v : String) : KeyValue := attribute_String "exception.type" v

/-- The helper `semconv.ExceptionMessage` (semconv v1.17.0). -/
def semconv_ExceptionMessage (v : String) : KeyValue := attribute_String "exception.message" v

/-- The helper `semconv.ExceptionStacktrace` (semconv v1.17.0). -/
def semconv_ExceptionStacktrace (v : String) : KeyValue :=
  attribute_String "exception.stacktrace" v

/-- Status codes of package `codes`. -/
inductive Code where
  | Unset
  | Error
  | Ok
  deriving DecidableEq, Repr

/-- The numeric order of the status codes (`Unset = 0`, `Error = 1`, `Ok = 2`). -/
def Code.rank : Code → Nat
  | Code.Unset => 0
  | Code.Error => 1
  | Code.Ok => 2

/-- The constant `http.StatusOK`. -/
def http_StatusOK : Nat := 200

/-- The constant `http.StatusBadRequest`. -/
def http_StatusBadRequest : Nat := 400

/-! ## The calls a handler performs -/

/-- One call made by the handler on one of its collaborators. -/
inductive Effect where
  /-- The call `io.ReadAll(r.Body)`. -/
  | ioReadAll
  /-- The call `r.Body.Close()`. -/
  | bodyClose
  /-- The call `json.Unmarshal(body, &phpError)`. -/
  | jsonUnmarshal (body : Bytes)
  /-- The call `http.Error(w, msg, code)`. -/
  | httpError (msg : String) (code : Nat)
  /-- The calls `otel.Tracer(scope)` and `tracer.Start(ctx, name)`. -/
  | tracerStart (scope name : String)
  /-- The call `span.AddEvent(name, trace.WithAttributes(attrs...))`. -/
  | spanAddEvent (name : String) (attrs : List KeyValue)
  /-- The call `span.SetAttributes(attrs...)`. -/
  | spanSetAttributes (attrs : List KeyValue)
  /-- The call `span.SetStatus(code, description)`. -/
  | spanSetStatus (code : Code) (description : String)
  /-- The call `span.End()`. -/
  | spanEnd
  /-- The call `log.Infof` with its formatted line. -/
  | logInfof (line : String)
  /-- The call `w.WriteHeader(code)`. -/
  | writeHeader (code : Nat)
  /-- The call `w.Write(bytes)`. -/
  | write (data : String)
  deriving DecidableEq, Repr

/-- Whether a call goes to the tracer or to a span. -/
def Effect.isSpanOp : Effect → Bool
  | Effect.tracerStart _ _ => true
  | Effect.spanAddEvent _ _ => true
  | Effect.spanSetAttributes _ => true
  | Effect.spanSetStatus _ _ => true
  | Effect.spanEnd => true
  | _ => false

/-- Whether a call is `span.End()`. -/
def Effect.isSpanEnd : Effect → Bool
  | Effect.spanEnd => true
  | _ => false

/-- Whether a call writes the response (status line or body). -/
def Effect.isResponseWrite : Effect → Bool
  | Effect.writeHeader _ => true
  | Effect.write _ => true
  | Effect.httpError _ _ => true
  | _ => false

/-- Whether a call starts a span. -/
def Effect.isTracerStart : Effect → Bool
  | Effect.tracerStart _ _ => true
  | _ => false

/-- Whether a call is `json.Unmarshal`. -/
def Effect.isUnmarshal : Effect → Bool
  | Effect.jsonUnmarshal _ => true
  | _ => false

/-! ## Function frames with `defer` -/

/-- The running state of one Go function call: the calls made so far, in
order, and the stack of postponed calls, the most recently postponed first. -/
structure Frame where
  done : List Effect := []
  deferred : List Effect := []
  deriving DecidableEq, Repr

/-- Perform a call now. -/
def Frame.call (f : Frame) (e : Effect) : Frame := { f with done := f.done ++ [e] }

/-- Postpone a call to the return of the function (`defer`). -/
def Frame.defer (f : Frame) (e : Effect) : Frame := { f with deferred := e :: f.deferred }

/-- Return from the function: the postponed calls run, last postponed first. -/
def Frame.ret (f : Frame) : List Effect := f.done ++ f.deferred

/-! ## The handler -/

/-- The function `errorsHandler` of `cmd/otlp.go` (lines 43-89), as the ordered
sequence of calls it performs for a request. -/
def errorsHandler (unmarshal : Unmarshal) (r : Request) : List Effect :=
  let f : Frame := {}
  -- body, err := io.ReadAll(r.Body)
  let f := f.call Effect.ioReadAll
  let body := r.body
  let err := r.err
  -- defer r.Body.Close()
  let f := f.defer Effect.bodyClose
  if err ≠ none then
    let f := f.call (Effect.httpError "failed to read request" http_StatusBadRequest)
    f.ret
  else
    -- var phpError PHPError
    let phpError := PHPError.zero
    let f := f.call (Effect.jsonUnmarshal body)
    let (phpError, err) := unmarshal body phpError
    if err ≠ none then
      let f := f.call (Effect.httpError "invalid JSON" http_StatusBadRequest)
      f.ret
    else
      -- tracer := otel.Tracer("php-errors"); ctx, span := tracer.Start(ctx, "php.exception")
      let f := f.call (Effect.tracerStart "php-errors" "php.exception")
      -- defer span.End()
      let f := f.defer Effect.spanEnd
      let f := f.call (Effect.spanAddEvent "exception"
        [ semconv_ExceptionType phpError.ErrorClass,
          semconv_ExceptionMessage phpError.Message,
          semconv_ExceptionStacktrace phpError.Trace ])
      let f := f.call (Effect.spanSetAttributes
        [ attribute_String "code.filepath" phpError.FilePath,
          attribute_Int "code.lineno" phpError.Line ])
      let f :=
        if phpError.RequestURL ≠ "" then
          f.call (Effect.spanSetAttributes [attribute_String "http.url" phpError.RequestURL])
        else f
      let f := f.call (Effect.spanSetStatus Code.Error
        (phpError.ErrorClass ++ ": " ++ phpError.Message))
      let f := f.call (Effect.logInfof
        ("php error traced: " ++ phpError.ErrorClass ++ " at " ++ phpError.FilePath ++ ":"
          ++ toString phpError.Line))
      let f := f.call (Effect.writeHeader http_StatusOK)
      let f := f.call (Effect.write "error traced")
      f.ret

/-! ## The response writer -/

/-- The observable state of an `http.ResponseWriter`: whether the status line
has been written, the status, and the body written so far. -/
structure ResponseWriter where
  wroteHeader : Bool := false
  status : Nat := 0
  body : String := ""
  deriving DecidableEq, Repr

/-- The method `WriteHeader`: the first status written is the one sent. -/
def ResponseWriter.WriteHeader (w : ResponseWriter) (code : Nat) : ResponseWriter :=
  if w.wroteHeader then w else { w with wroteHeader := true, status := code }

/-- The method `Write`: writes the status `200` first when none was written. -/
def ResponseWriter.Write (w : ResponseWriter) (data : String) : ResponseWriter :=
  let w := if w.wroteHeader then w else w.WriteHeader http_StatusOK
  { w with body := w.body ++ data }

/-- The function `http.Error`: writes the status, then the message and a
newline. -/
def http_Error (w : ResponseWriter) (msg : String) (code : Nat) : ResponseWriter :=
  (w.WriteHeader code).Write (msg ++ "\n")

/-- The effect of one call on the response writer. -/
def ResponseWriter.step (w : ResponseWriter) : Effect → ResponseWriter
  | Effect.httpError msg code => http_Error w msg code
  | Effect.writeHeader code => w.WriteHeader code
  | Effect.write data => w.Write data
  | _ => w

/-- The response produced by a sequence of calls on a fresh response writer. -/
def response (es : List Effect) : ResponseWriter :=
  es.foldl ResponseWriter.step {}

/-! ## Recording spans -/

/-- A span event. -/
structure Event where
  name : String
  attributes : List KeyValue
  deriving DecidableEq, Repr

/-- The status of a span. -/
structure Status where
  code : Code := Code.Unset
  description : String := ""
  deriving DecidableEq, Repr

/-- The content of a recording span. -/
structure Span where
  scope : String
  name : String
  events : List Event := []
  attributes : List KeyValue := []
  status : Status := {}
  deriving DecidableEq, Repr

/-- The method `AddEvent` of a recording span. -/
def Span.AddEvent (s : Span) (name : String) (attrs : List KeyValue) : Span :=
  { s with events := s.events ++ [⟨name, attrs⟩] }

/-- Set one attribute: a later value for a key replaces the earlier one. -/
def Span.setAttribute (s : Span) (kv : KeyValue) : Span :=
  { s with attributes := (s.attributes.filter fun a => a.key ≠ kv.key) ++ [kv] }

/-- The method `SetAttributes` of a recording span. -/
def Span.SetAttributes (s : Span) (attrs : List KeyValue) : Span :=
  attrs.foldl Span.setAttribute s

/-- The method `SetStatus` of a recording span: a status of higher rank is
kept, and the description is stored for `Error` only. -/
def Span.SetStatus (s : Span) (code : Code) (description : String) : Span :=
  if code.rank < s.status.code.rank then s
  else { s with status := ⟨code, if code = Code.Error then description else ""⟩ }

/-- The value of the attribute with the given key, if the span carries one. -/
def Span.attribute (s : Span) (key : String) : Option Value :=
  (s.attributes.find? fun a => a.key = key).map KeyValue.value

/-- The tracing state under an installed provider: the recording span in
progress and the spans ended so far. -/
structure Tracing where
  live : Option Span := none
  ended : List Span := []
  deriving DecidableEq, Repr

/-- The effect of one call on the tracing state. -/
def Tracing.step (t : Tracing) : Effect → Tracing
  | Effect.tracerStart scope name => { t with live := some { scope := scope, name := name } }
  | Effect.spanAddEvent name attrs => { t with live := t.live.map fun s => s.AddEvent name attrs }
  | Effect.spanSetAttributes attrs => { t with live := t.live.map fun s => s.SetAttributes attrs }
  | Effect.spanSetStatus code d => { t with live := t.live.map fun s => s.SetStatus code d }
  | Effect.spanEnd =>
    match t.live with
    | some s => { live := none, ended := t.ended ++ [s] }
    | none => t
  | _ => t

/-- The spans a recording tracer emits (starts and ends) for a sequence of
calls, starting from the given list of spans already emitted. -/
def emitFrom (sink : List Span) (es : List Effect) : List Span :=
  (es.foldl Tracing.step { ended := sink }).ended

/-- The spans a recording tracer emits for a sequence of calls. -/
def emittedSpans (es : List Effect) : List Span := emitFrom [] es

/-- The position of the first call satisfying a test comes before the
position of the first call satisfying another. -/
def precedes (p q : Effect → Bool) (es : List Effect) : Bool :=
  match es.findIdx? p, es.findIdx? q with
  | some i, some j => decide (i < j)
  | _, _ => false

/-! ## The process: tracer initialisation and the handler run on state -/

/-- The state of the process that outlives a request.  `tracerProvider` is the
package variable of line 29 together with the global provider of `otel`:
`none` while `otel.SetTracerProvider` was never called, in which case the
tracers of `otel.Tracer` are no-ops, and `some ended` once a provider is
installed, `ended` being the spans ended so far and handed to its batcher.
`logs` holds the lines written through `log`. -/
structure Process where
  tracerProvider : Option (List Span) := none
  logs : List String := []
  deriving DecidableEq, Repr

/-- The spans emitted by the process so far. -/
def Process.spans (p : Process) : List Span := p.tracerProvider.getD []

/-- The function `init` of `cmd/otlp.go` (lines 31-41).  Its argument is the
error returned by `otlptracegrpc.New(ctx)`, `none` for `nil`: on an error the
failure is logged and no provider is installed. -/
def init (err : Option String) (p : Process) : Process :=
  match err with
  | some msg =>
    -- log.Error("failed to create OTLP exporter:", err); return
    { p with logs := p.logs ++ ["failed to create OTLP exporter:" ++ msg] }
  | none =>
    -- tracerProvider = sdktrace.NewTracerProvider(...); otel.SetTracerProvider(tracerProvider)
    { p with tracerProvider := some [] }

/-- The state a handler call acts on: the process, the response writer of the
request, the recording span held in the variable `span` (`none` when the
tracer is a no-op, whose spans record nothing) and whether the request body
was closed. -/
structure World where
  process : Process := {}
  w : ResponseWriter := {}
  span : Option Span := none
  bodyClosed : Bool := false
  deriving DecidableEq, Repr

/-- The effect of one call on the state. -/
def World.step (x : World) : Effect → World
  | Effect.ioReadAll => x
  | Effect.bodyClose => { x with bodyClosed := true }
  | Effect.jsonUnmarshal _ => x
  | Effect.httpError msg code => { x with w := http_Error x.w msg code }
  | Effect.tracerStart scope name =>
    { x with span := x.process.tracerProvider.map fun _ => { scope := scope, name := name } }
  | Effect.spanAddEvent name attrs => { x with span := x.span.map fun s => s.AddEvent name attrs }
  | Effect.spanSetAttributes attrs => { x with span := x.span.map fun s => s.SetAttributes attrs }
  | Effect.spanSetStatus code d => { x with span := x.span.map fun s => s.SetStatus code d }
  | Effect.spanEnd =>
    match x.span, x.process.tracerProvider with
    | some s, some ended =>
      { x with span := none, process := { x.process with tracerProvider := some (ended ++ [s]) } }
    | _, _ => x
  | Effect.logInfof line => { x with process := { x.process with logs := x.process.logs ++ [line] } }
  | Effect.writeHeader code => { x with w := x.w.WriteHeader code }
  | Effect.write data => { x with w := x.w.Write data }

/-- The running state of one Go function call acting on a `World`: the state
reached so far and the stack of postponed calls, the most recently postponed
first. -/
structure Run where
  world : World
  deferred : List Effect := []
  deriving DecidableEq, Repr

/-- Perform a call now. -/
def Run.call (f : Run) (e : Effect) : Run := { f with world := f.world.step e }

/-- Postpone a call to the return of the function (`defer`). -/
def Run.defer (f : Run) (e : Effect) : Run := { f with deferred := e :: f.deferred }

/-- Return from the function: the postponed calls run, last postponed first. -/
def Run.ret (f : Run) : World := f.deferred.foldl World.step f.world

/-- The function `errorsHandler` of `cmd/otlp.go` (lines 43-89) as a
transformer of the state it runs in: every call acts on the state at once. -/
def errorsHandlerState (unmarshal : Unmarshal) (x : World) (r : Request) : World :=
  let f : Run := { world := x }
  -- body, err := io.ReadAll(r.Body)
  let f := f.call Effect.ioReadAll
  let body := r.body
  let err := r.err
  -- defer r.Body.Close()
  let f := f.defer Effect.bodyClose
  if err ≠ none then
    let f := f.call (Effect.httpError "failed to read request" http_StatusBadRequest)
    f.ret
  else
    -- var phpError PHPError
    let phpError := PHPError.zero
    let f := f.call (Effect.jsonUnmarshal body)
    let (phpError, err) := unmarshal body phpError
    if err ≠ none then
      let f := f.call (Effect.httpError "invalid JSON" http_StatusBadRequest)
      f.ret
    else
      -- tracer := otel.Tracer("php-errors"); ctx, span := tracer.Start(ctx, "php.exception")
      let f := f.call (Effect.tracerStart "php-errors" "php.exception")
      -- defer span.End()
      let f := f.defer Effect.spanEnd
      let f := f.call (Effect.spanAddEvent "exception"
        [ semconv_ExceptionType phpError.ErrorClass,
          semconv_ExceptionMessage phpError.Message,
          semconv_ExceptionStacktrace phpError.Trace ])
      let f := f.call (Effect.spanSetAttributes
        [ attribute_String "code.filepath" phpError.FilePath,
          attribute_Int "code.lineno" phpError.Line ])
      let f :=
        if phpError.RequestURL ≠ "" then
          f.call (Effect.spanSetAttributes [attribute_String "http.url" phpError.RequestURL])
        else f
      let f := f.call (Effect.spanSetStatus Code.Error
        (phpError.ErrorClass ++ ": " ++ phpError.Message))
      let f := f.call (Effect.logInfof
        ("php error traced: " ++ phpError.ErrorClass ++ " at " ++ phpError.FilePath ++ ":"
          ++ toString phpError.Line))
      let f := f.call (Effect.writeHeader http_StatusOK)
      let f := f.call (Effect.write "error traced")
      f.ret

/-- Serve one request in a process: the handler runs with a fresh response
writer; the response and the process state it leaves are returned. -/
def serveHTTP (unmarshal : Unmarshal) (p : Process) (r : Request) : ResponseWriter × Process :=
  let x := errorsHandlerState unmarshal { process := p } r
  (x.w, x.process)

/-! ## Example inputs -/

/-- The bytes of an ASCII string. -/
def bytesOf (s : String) : Bytes := s.toList.map fun c => UInt8.ofNat c.toNat

/-- The request body of the example scenario of the specification. -/
def exampleBody : Bytes :=
  bytesOf ("\x7b\"error_class\":\"RuntimeException\",\"message\":\"division by zero\"," ++
    "\"file_path\":\"/var/www/app.php\",\"line\":42,\"trace\":\"#0 app.php(42)\"," ++
    "\"request_url\":\"https://example.com/x\",\"timestamp\":1700000000\x7d")

/-- The example body with the timestamp one second later. -/
def laterBody : Bytes :=
  bytesOf ("\x7b\"error_class\":\"RuntimeException\",\"message\":\"division by zero\"," ++
    "\"file_path\":\"/var/www/app.php\",\"line\":42,\"trace\":\"#0 app.php(42)\"," ++
    "\"request_url\":\"https://example.com/x\",\"timestamp\":1700000001\x7d")

/-- The report that `exampleBody` decodes to. -/
def exampleError : PHPError :=
  { ErrorClass := "RuntimeException", Message := "division by zero",
    FilePath := "/var/www/app.php", Line := 42, Trace := "#0 app.php(42)",
    RequestURL := "https://example.com/x", Timestamp := 1700000000 }

/-- A decoder for the examples, standing for `json.Unmarshal` on the four
bodies the examples use: the body `{}` leaves the target untouched,
`exampleBody` and `laterBody` fill every field, and the empty body is
rejected.  Any other body is reported as an error; no example uses one. -/
def exampleUnmarshal : Unmarshal := fun body target =>
  if body = [] then (target, some "unexpected end of JSON input")
  else if body = [123, 125] then (target, none)
  else if body = exampleBody then (exampleError, none)
  else if body = laterBody then ({ exampleError with Timestamp := 1700000001 }, none)
  else (target, some "invalid JSON for the examples")

/-- A request whose body is read in full. -/
def okRequest (body : Bytes) : Request := ⟨body, none⟩

/-- A request whose body cannot be read. -/
def failedRequest : Request := ⟨[], some "unexpected EOF"⟩

/-! ## The three paths of the handler -/

/-- The calls made when the body cannot be read. -/
theorem errorsHandler_read_failed (u : Unmarshal) (r : Request) (msg : String)
    (hread : r.err = some msg) :
    errorsHandler u r =
      [Effect.ioReadAll, Effect.httpError "failed to read request" 400, Effect.bodyClose] := by
  simp [errorsHandler, hread, Frame.call, Frame.defer, Frame.ret, http_StatusBadRequest]

/-- The calls made when the body is read and the decoder rejects it. -/
theorem errorsHandler_decode_failed (u : Unmarshal) (r : Request) (e : PHPError) (msg : String)
    (hread : r.err = none) (hdec : u r.body PHPError.zero = (e, some msg)) :
    errorsHandler u r =
      [Effect.ioReadAll, Effect.jsonUnmarshal r.body, Effect.httpError "invalid JSON" 400,
        Effect.bodyClose] := by
  simp [errorsHandler, hread, hdec, Frame.call, Frame.defer, Frame.ret, http_StatusBadRequest]

/-- The calls made when the body is read and decoded. -/
theorem errorsHandler_accepted (u : Unmarshal) (r : Request) (e : PHPError)
    (hread : r.err = none) (hdec : u r.body PHPError.zero = (e, none)) :
    errorsHandler u r =
      [Effect.ioReadAll, Effect.jsonUnmarshal r.body,
        Effect.tracerStart "php-errors" "php.exception",
        Effect.spanAddEvent "exception"
          [⟨"exception.type", Value.str e.ErrorClass⟩,
            ⟨"exception.message", Value.str e.Message⟩,
            ⟨"exception.stacktrace", Value.str e.Trace⟩],
        Effect.spanSetAttributes
          [⟨"code.filepath", Value.str e.FilePath⟩, ⟨"code.lineno", Value.int e.Line⟩]]
      ++ (if e.RequestURL = "" then []
          else [Effect.spanSetAttributes [⟨"http.url", Value.str e.RequestURL⟩]])
      ++ [Effect.spanSetStatus Code.Error (e.ErrorClass ++ ": " ++ e.Message),
        Effect.logInfof ("php error traced: " ++ e.ErrorClass ++ " at " ++ e.FilePath ++ ":"
          ++ toString e.Line),
        Effect.writeHeader 200, Effect.write "error traced", Effect.spanEnd,
        Effect.bodyClose] := by
  by_cases hurl : e.RequestURL = "" <;>
    simp [errorsHandler, hread, hdec, hurl, Frame.call, Frame.defer, Frame.ret, http_StatusOK,
      semconv_ExceptionType, semconv_ExceptionMessage, semconv_ExceptionStacktrace,
      attribute_String, attribute_Int]

/-- The response on the accepted path. -/
theorem response_accepted (u : Unmarshal) (r : Request) (e : PHPError)
    (hread : r.err = none) (hdec : u r.body PHPError.zero = (e, none)) :
    response (errorsHandler u r) = ⟨true, 200, "error traced"⟩ := by
  rw [errorsHandler_accepted u r e hread hdec]
  by_cases hurl : e.RequestURL = "" <;>
    simp [response, hurl, ResponseWriter.step, ResponseWriter.WriteHeader, ResponseWriter.Write]

/-- The spans handed to the sink on the accepted path: exactly one, with the
content below. -/
theorem emitFrom_accepted (u : Unmarshal) (r : Request) (e : PHPError) (sink : List Span)
    (hread : r.err = none) (hdec : u r.body PHPError.zero = (e, none)) :
    emitFrom sink (errorsHandler u r) = sink ++
      [{ scope := "php-errors", name := "php.exception",
         events := [⟨"exception",
           [⟨"exception.type", Value.str e.ErrorClass⟩,
             ⟨"exception.message", Value.str e.Message⟩,
             ⟨"exception.stacktrace", Value.str e.Trace⟩]⟩],
         attributes :=
           [⟨"code.filepath", Value.str e.FilePath⟩, ⟨"code.lineno", Value.int e.Line⟩]
           ++ (if e.RequestURL = "" then [] else [⟨"http.url", Value.str e.RequestURL⟩]),
         status := ⟨Code.Error, e.ErrorClass ++ ": " ++ e.Message⟩ }] := by
  rw [errorsHandler_accepted u r e hread hdec]
  by_cases hurl : e.RequestURL = "" <;>
    simp [emitFrom, hurl, Tracing.step, Span.AddEvent, Span.SetAttributes, Span.setAttribute,
      Span.SetStatus, Code.rank]

/-- The handler run on a state makes the calls of `errorsHandler`, each
acting on the state in turn. -/
theorem errorsHandlerState_eq_foldl (u : Unmarshal) (x : World) (r : Request) :
    errorsHandlerState u x r = (errorsHandler u r).foldl World.step x := by
  unfold errorsHandlerState errorsHandler
  cases hread : r.err with
  | some msg => simp [Run.call, Run.defer, Run.ret, Frame.call, Frame.defer, Frame.ret]
  | none =>
    cases hdec : u r.body PHPError.zero with
    | mk e err =>
      cases err with
      | some msg =>
        simp [hdec, Run.call, Run.defer, Run.ret, Frame.call, Frame.defer, Frame.ret]
      | none =>
        by_cases hurl : e.RequestURL = "" <;>
          simp [hdec, hurl, Run.call, Run.defer, Run.ret, Frame.call, Frame.defer, Frame.ret]

/-- Serving an accepted request: the response is `200 error traced`; an
installed provider receives one span, a missing provider stays missing; one
line is logged. -/
theorem serveHTTP_accepted (u : Unmarshal) (p : Process) (r : Request) (e : PHPError)
    (hread : r.err = none) (hdec : u r.body PHPError.zero = (e, none)) :
    serveHTTP u p r =
      (⟨true, 200, "error traced"⟩,
        { tracerProvider := p.tracerProvider.map fun ended => ended ++
            [{ scope := "php-errors", name := "php.exception",
               events := [⟨"exception",
                 [⟨"exception.type", Value.str e.ErrorClass⟩,
                   ⟨"exception.message", Value.str e.Message⟩,
                   ⟨"exception.stacktrace", Value.str e.Trace⟩]⟩],
               attributes :=
                 [⟨"code.filepath", Value.str e.FilePath⟩, ⟨"code.lineno", Value.int e.Line⟩]
                 ++ (if e.RequestURL = "" then [] else [⟨"http.url", Value.str e.RequestURL⟩]),
               status := ⟨Code.Error, e.ErrorClass ++ ": " ++ e.Message⟩ }],
          logs := p.logs ++ ["php error traced: " ++ e.ErrorClass ++ " at " ++ e.FilePath
            ++ ":" ++ toString e.Line] }) := by
  unfold serveHTTP
  rw [errorsHandlerState_eq_foldl, errorsHandler_accepted u r e hread hdec]
  obtain ⟨tp, logs⟩ := p
  cases tp <;> by_cases hurl : e.RequestURL = "" <;>
    simp [hurl, World.step, Span.AddEvent, Span.SetAttributes, Span.setAttribute,
      Span.SetStatus, Code.rank, ResponseWriter.WriteHeader, ResponseWriter.Write]

/-! ## Claims -/

/-- Claim C1: for every request whose body is read without error and decodes
successfully as a `PHPError`, the handler responds with status 200 and body
exactly `error traced`, whatever the decoded record is (its class and message
included, empty or not). -/
theorem C1_accepted_response_200 (u : Unmarshal) (r : Request) (e : PHPError)
    (hread : r.err = none) (hdec : u r.body PHPError.zero = (e, none)) :
    (response (errorsHandler u r)).status = 200 ∧
      (response (errorsHandler u r)).body = "error traced" := by
  rw [response_accepted u r e hread hdec]
  exact ⟨rfl, rfl⟩

/-- Witness of C1 on the body `{}`, which decodes to the record with empty
class and message. -/
theorem C1_accepted_response_200_witness :
    (okRequest [123, 125]).err = none ∧
      exampleUnmarshal (okRequest [123, 125]).body PHPError.zero = (PHPError.zero, none) ∧
      (response (errorsHandler exampleUnmarshal (okRequest [123, 125]))).status = 200 ∧
      (response (errorsHandler exampleUnmarshal (okRequest [123, 125]))).body
        = "error traced" :=
  ⟨rfl, rfl, C1_accepted_response_200 exampleUnmarshal (okRequest [123, 125]) PHPError.zero
    rfl rfl⟩

/-- Claim C2: for every request body that is read successfully and rejected by
the JSON decoder, the handler responds with status 400 and emits no span: it
makes no call on the tracer or on a span, and the sink of emitted spans is
left as it was. -/
theorem C2_decode_error_400_no_span (u : Unmarshal) (r : Request) (e : PHPError)
    (msg : String) (hread : r.err = none) (hdec : u r.body PHPError.zero = (e, some msg)) :
    (response (errorsHandler u r)).status = 400 ∧
      (∀ x ∈ errorsHandler u r, x.isSpanOp = false) ∧
      emittedSpans (errorsHandler u r) = [] ∧
      ∀ sink, emitFrom sink (errorsHandler u r) = sink := by
  rw [errorsHandler_decode_failed u r e msg hread hdec]
  simp [response, ResponseWriter.step, http_Error, ResponseWriter.WriteHeader,
    ResponseWriter.Write, Effect.isSpanOp, emittedSpans, emitFrom, Tracing.step]

/-- Witness of C2 on the empty body, which the example decoder rejects. -/
theorem C2_decode_error_400_no_span_witness :
    (okRequest []).err = none ∧
      exampleUnmarshal (okRequest []).body PHPError.zero
        = (PHPError.zero, some "unexpected end of JSON input") ∧
      ((response (errorsHandler exampleUnmarshal (okRequest []))).status = 400 ∧
        (∀ x ∈ errorsHandler exampleUnmarshal (okRequest []), x.isSpanOp = false) ∧
        emittedSpans (errorsHandler exampleUnmarshal (okRequest [])) = [] ∧
        ∀ sink, emitFrom sink (errorsHandler exampleUnmarshal (okRequest [])) = sink) :=
  ⟨rfl, rfl, C2_decode_error_400_no_span exampleUnmarshal (okRequest []) PHPError.zero
    "unexpected end of JSON input" rfl rfl⟩

/-- Claim C3: for every request whose body read fails, the handler responds
with status 400 and does not proceed: its calls are the read, the error
response and the closing of the body, so the body is not decoded, no call is
made on the tracer or on a span, and no span is emitted. -/
theorem C3_read_error_400_stops (u : Unmarshal) (r : Request) (msg : String)
    (hread : r.err = some msg) :
    (response (errorsHandler u r)).status = 400 ∧
      errorsHandler u r =
        [Effect.ioReadAll, Effect.httpError "failed to read request" 400, Effect.bodyClose] ∧
      (∀ x ∈ errorsHandler u r, x.isUnmarshal = false ∧ x.isSpanOp = false) ∧
      ∀ sink, emitFrom sink (errorsHandler u r) = sink := by
  rw [errorsHandler_read_failed u r msg hread]
  simp [response, ResponseWriter.step, http_Error, ResponseWriter.WriteHeader,
    ResponseWriter.Write, Effect.isSpanOp, Effect.isUnmarshal, emitFrom, Tracing.step]

/-- Witness of C3 on a request whose body read ends with an error. -/
theorem C3_read_error_400_stops_witness :
    failedRequest.err = some "unexpected EOF" ∧
      ((response (errorsHandler exampleUnmarshal failedRequest)).status = 400 ∧
        errorsHandler exampleUnmarshal failedRequest =
          [Effect.ioReadAll, Effect.httpError "failed to read request" 400,
            Effect.bodyClose] ∧
        (∀ x ∈ errorsHandler exampleUnmarshal failedRequest,
          x.isUnmarshal = false ∧ x.isSpanOp = false) ∧
        ∀ sink, emitFrom sink (errorsHandler exampleUnmarshal failedRequest) = sink) :=
  ⟨rfl, C3_read_error_400_stops exampleUnmarshal failedRequest "unexpected EOF" rfl⟩

/-- Claim C4: for every accepted report the handler emits one span; when
`request_url` is left empty (absent from the body or the empty string) no
attribute of the span has the key `http.url`, and when it is non-empty the
span carries exactly one `http.url` attribute, whose value is that string. -/
theorem C4_http_url_attribute (u : Unmarshal) (r : Request) (e : PHPError)
    (hread : r.err = none) (hdec : u r.body PHPError.zero = (e, none)) :
    ∃ sp, emittedSpans (errorsHandler u r) = [sp] ∧
      (e.RequestURL = "" →
        (∀ kv ∈ sp.attributes, kv.key ≠ "http.url") ∧ sp.attribute "http.url" = none) ∧
      (e.RequestURL ≠ "" →
        sp.attributes.filter (fun kv => kv.key = "http.url")
          = [⟨"http.url", Value.str e.RequestURL⟩] ∧
        sp.attribute "http.url" = some (Value.str e.RequestURL)) := by
  refine ⟨_, by simpa [emittedSpans] using emitFrom_accepted u r e [] hread hdec, ?_, ?_⟩
  · intro hurl
    simp [hurl, Span.attribute]
  · intro hurl
    simp [hurl, Span.attribute]

/-- Witness of C4 on the example body, whose URL is
`https://example.com/x`. -/
theorem C4_http_url_attribute_witness :
    (okRequest exampleBody).err = none ∧
      exampleUnmarshal (okRequest exampleBody).body PHPError.zero = (exampleError, none) ∧
      ∃ sp, emittedSpans (errorsHandler exampleUnmarshal (okRequest exampleBody)) = [sp] ∧
        (exampleError.RequestURL = "" →
          (∀ kv ∈ sp.attributes, kv.key ≠ "http.url") ∧ sp.attribute "http.url" = none) ∧
        (exampleError.RequestURL ≠ "" →
          sp.attributes.filter (fun kv => kv.key = "http.url")
            = [⟨"http.url", Value.str exampleError.RequestURL⟩] ∧
          sp.attribute "http.url" = some (Value.str exampleError.RequestURL)) :=
  ⟨rfl, rfl, C4_http_url_attribute exampleUnmarshal (okRequest exampleBody) exampleError rfl rfl⟩

/-- Claim C5: for every accepted report the emitted span has status `Error`
and its status description is the class, then `: `, then the message,
verbatim; when both are empty the description is exactly `: `. -/
theorem C5_status_description (u : Unmarshal) (r : Request) (e : PHPError)
    (hread : r.err = none) (hdec : u r.body PHPError.zero = (e, none)) :
    ∃ sp, emittedSpans (errorsHandler u r) = [sp] ∧
      sp.status.code = Code.Error ∧
      sp.status.description = e.ErrorClass ++ ": " ++ e.Message ∧
      (e.ErrorClass = "" → e.Message = "" → sp.status.description = ": ") := by
  refine ⟨_, by simpa [emittedSpans] using emitFrom_accepted u r e [] hread hdec, rfl, rfl, ?_⟩
  intro hc hm
  simp [hc, hm]

/-- Witness of C5 on the body `{}`, decoded with empty class and message. -/
theorem C5_status_description_witness :
    (okRequest [123, 125]).err = none ∧
      exampleUnmarshal (okRequest [123, 125]).body PHPError.zero = (PHPError.zero, none) ∧
      ∃ sp, emittedSpans (errorsHandler exampleUnmarshal (okRequest [123, 125])) = [sp] ∧
        sp.status.code = Code.Error ∧
        sp.status.description = PHPError.zero.ErrorClass ++ ": " ++ PHPError.zero.Message ∧
        (PHPError.zero.ErrorClass = "" → PHPError.zero.Message = "" →
          sp.status.description = ": ") :=
  ⟨rfl, rfl, C5_status_description exampleUnmarshal (okRequest [123, 125]) PHPError.zero
    rfl rfl⟩

/-- Claim C6: for every accepted report the emitted span carries exactly one
event, named `exception`, whose attributes are exactly three: the exception
type equal to the class, the exception message equal to the message, and the
exception stack trace equal to the trace. -/
theorem C6_exception_event (u : Unmarshal) (r : Request) (e : PHPError)
    (hread : r.err = none) (hdec : u r.body PHPError.zero = (e, none)) :
    ∃ sp, emittedSpans (errorsHandler u r) = [sp] ∧
      sp.events = [⟨"exception",
        [semconv_ExceptionType e.ErrorClass, semconv_ExceptionMessage e.Message,
          semconv_ExceptionStacktrace e.Trace]⟩] :=
  ⟨_, by simpa [emittedSpans] using emitFrom_accepted u r e [] hread hdec, rfl⟩

/-- Witness of C6 on the example body. -/
theorem C6_exception_event_witness :
    (okRequest exampleBody).err = none ∧
      exampleUnmarshal (okRequest exampleBody).body PHPError.zero = (exampleError, none) ∧
      ∃ sp, emittedSpans (errorsHandler exampleUnmarshal (okRequest exampleBody)) = [sp] ∧
        sp.events = [⟨"exception",
          [semconv_ExceptionType exampleError.ErrorClass,
            semconv_ExceptionMessage exampleError.Message,
            semconv_ExceptionStacktrace exampleError.Trace]⟩] :=
  ⟨rfl, rfl, C6_exception_event exampleUnmarshal (okRequest exampleBody) exampleError rfl rfl⟩

/-- Claim C7: for every accepted report the emitted span carries the attribute
`code.filepath` equal to the file path and the attribute `code.lineno` equal
to the line, with no condition on their values: they are set also when the
path is empty or the line is zero, as when the fields are missing from the
body and keep their zero values. -/
theorem C7_code_location_attributes (u : Unmarshal) (r : Request) (e : PHPError)
    (hread : r.err = none) (hdec : u r.body PHPError.zero = (e, none)) :
    ∃ sp, emittedSpans (errorsHandler u r) = [sp] ∧
      sp.attribute "code.filepath" = some (Value.str e.FilePath) ∧
      sp.attribute "code.lineno" = some (Value.int e.Line) ∧
      attribute_String "code.filepath" e.FilePath ∈ sp.attributes ∧
      attribute_Int "code.lineno" e.Line ∈ sp.attributes := by
  refine ⟨_, by simpa [emittedSpans] using emitFrom_accepted u r e [] hread hdec, ?_, ?_, ?_, ?_⟩
    <;> simp [Span.attribute, attribute_String, attribute_Int]

/-- Witness of C7 on the body `{}`: every field is missing, the path is empty
and the line is zero, and both attributes are set. -/
theorem C7_code_location_attributes_witness :
    (okRequest [123, 125]).err = none ∧
      exampleUnmarshal (okRequest [123, 125]).body PHPError.zero = (PHPError.zero, none) ∧
      ∃ sp, emittedSpans (errorsHandler exampleUnmarshal (okRequest [123, 125])) = [sp] ∧
        sp.attribute "code.filepath" = some (Value.str PHPError.zero.FilePath) ∧
        sp.attribute "code.lineno" = some (Value.int PHPError.zero.Line) ∧
        attribute_String "code.filepath" PHPError.zero.FilePath ∈ sp.attributes ∧
        attribute_Int "code.lineno" PHPError.zero.Line ∈ sp.attributes :=
  ⟨rfl, rfl, C7_code_location_attributes exampleUnmarshal (okRequest [123, 125]) PHPError.zero
    rfl rfl⟩

/-- Counterexample to C8 as stated: when the construction of the exporter
fails, `init` installs no provider; the body `{}` is accepted and served
twice, both responses are `200 error traced`, and no span is emitted: the
process holds no span after the two requests, so it does not hold two. -/
theorem C8_no_span_after_failed_init :
    (okRequest [123, 125]).err = none ∧
      exampleUnmarshal (okRequest [123, 125]).body PHPError.zero = (PHPError.zero, none) ∧
      (init (some "no endpoint") {}).tracerProvider = none ∧
      (serveHTTP exampleUnmarshal (init (some "no endpoint") {}) (okRequest [123, 125])).1
        = ⟨true, 200, "error traced"⟩ ∧
      (serveHTTP exampleUnmarshal
        (serveHTTP exampleUnmarshal (init (some "no endpoint") {}) (okRequest [123, 125])).2
        (okRequest [123, 125])).1 = ⟨true, 200, "error traced"⟩ ∧
      (serveHTTP exampleUnmarshal
        (serveHTTP exampleUnmarshal (init (some "no endpoint") {}) (okRequest [123, 125])).2
        (okRequest [123, 125])).2.spans = [] ∧
      ¬ ∃ sp, (serveHTTP exampleUnmarshal
        (serveHTTP exampleUnmarshal (init (some "no endpoint") {}) (okRequest [123, 125])).2
        (okRequest [123, 125])).2.spans = [sp, sp] := by
  refine ⟨rfl, rfl, rfl, rfl, rfl, rfl, ?_⟩
  rintro ⟨sp, h⟩
  have h0 : (serveHTTP exampleUnmarshal
      (serveHTTP exampleUnmarshal (init (some "no endpoint") {}) (okRequest [123, 125])).2
      (okRequest [123, 125])).2.spans = [] := rfl
  rw [h0] at h
  exact List.noConfusion h

/-- Claim C8, amended: serving the same accepted request twice in succession,
from any state of the process, yields two responses `200 error traced`.  When
a tracer provider is installed, each of the two runs emits exactly one span,
named `php.exception` under the scope `php-errors`: the second span equals the
first and is appended after it, whatever the provider already holds.  When
none is installed (the construction of the exporter failed in `init`), no
span is emitted. -/
theorem C8_same_request_twice (u : Unmarshal) (r : Request) (e : PHPError) (p : Process)
    (hread : r.err = none) (hdec : u r.body PHPError.zero = (e, none)) :
    ∃ sp, sp.scope = "php-errors" ∧ sp.name = "php.exception" ∧
      emittedSpans (errorsHandler u r) = [sp] ∧
      (serveHTTP u p r).1 = ⟨true, 200, "error traced"⟩ ∧
      (serveHTTP u (serveHTTP u p r).2 r).1 = ⟨true, 200, "error traced"⟩ ∧
      (serveHTTP u p r).2.tracerProvider
        = p.tracerProvider.map (fun ended => ended ++ [sp]) ∧
      (serveHTTP u (serveHTTP u p r).2 r).2.tracerProvider
        = p.tracerProvider.map (fun ended => ended ++ [sp, sp]) := by
  refine ⟨_, rfl, rfl, by simpa [emittedSpans] using emitFrom_accepted u r e [] hread hdec,
    ?_, ?_, ?_, ?_⟩
  · rw [serveHTTP_accepted u p r e hread hdec]
  · rw [serveHTTP_accepted u _ r e hread hdec]
  · simp [serveHTTP_accepted u p r e hread hdec]
  · rw [serveHTTP_accepted u _ r e hread hdec, serveHTTP_accepted u p r e hread hdec]
    cases p.tracerProvider <;> simp

/-- Witness of the amended C8 on the example body, served twice in a process
whose `init` installed a provider: the two spans are emitted. -/
theorem C8_same_request_twice_witness :
    (okRequest exampleBody).err = none ∧
      exampleUnmarshal (okRequest exampleBody).body PHPError.zero = (exampleError, none) ∧
      (init none {}).tracerProvider = some [] ∧
      ∃ sp, sp.scope = "php-errors" ∧ sp.name = "php.exception" ∧
        emittedSpans (errorsHandler exampleUnmarshal (okRequest exampleBody)) = [sp] ∧
        (serveHTTP exampleUnmarshal (init none {}) (okRequest exampleBody)).1
          = ⟨true, 200, "error traced"⟩ ∧
        (serveHTTP exampleUnmarshal
          (serveHTTP exampleUnmarshal (init none {}) (okRequest exampleBody)).2
          (okRequest exampleBody)).1 = ⟨true, 200, "error traced"⟩ ∧
        (serveHTTP exampleUnmarshal (init none {}) (okRequest exampleBody)).2.tracerProvider
          = (init none {}).tracerProvider.map (fun ended => ended ++ [sp]) ∧
        (serveHTTP exampleUnmarshal
          (serveHTTP exampleUnmarshal (init none {}) (okRequest exampleBody)).2
          (okRequest exampleBody)).2.tracerProvider
          = (init none {}).tracerProvider.map (fun ended => ended ++ [sp, sp]) :=
  ⟨rfl, rfl, rfl,
    C8_same_request_twice exampleUnmarshal (okRequest exampleBody) exampleError (init none {})
      rfl rfl⟩

/-- Counterexample to C9 as stated: the body `{}` is accepted, and in the call
sequence of the handler `span.End` does not come before the writing of the
response; it comes after it (the status is written by the call at position 7,
the span is ended by the call at position 9). -/
theorem C9_span_end_not_before_response :
    (okRequest [123, 125]).err = none ∧
      exampleUnmarshal (okRequest [123, 125]).body PHPError.zero = (PHPError.zero, none) ∧
      precedes Effect.isSpanEnd Effect.isResponseWrite
        (errorsHandler exampleUnmarshal (okRequest [123, 125])) = false ∧
      (errorsHandler exampleUnmarshal (okRequest [123, 125])).findIdx? Effect.isResponseWrite
        = some 7 ∧
      (errorsHandler exampleUnmarshal (okRequest [123, 125])).findIdx? Effect.isSpanEnd
        = some 9 := by
  refine ⟨rfl, rfl, ?_, ?_, ?_⟩ <;> rfl

/-- Claim C9, amended: on the success path `span.End` is postponed with
`defer` and runs when the handler returns, after the response is written: the
call sequence ends with the status 200, the body `error traced`, `span.End`
and the closing of the request body, in that order, and no earlier call ends
the span or writes the response. -/
theorem C9_span_end_after_response (u : Unmarshal) (r : Request) (e : PHPError)
    (hread : r.err = none) (hdec : u r.body PHPError.zero = (e, none)) :
    (∃ pre, errorsHandler u r = pre ++
        [Effect.writeHeader 200, Effect.write "error traced", Effect.spanEnd,
          Effect.bodyClose] ∧
      ∀ x ∈ pre, x.isSpanEnd = false ∧ x.isResponseWrite = false) ∧
    precedes Effect.isResponseWrite Effect.isSpanEnd (errorsHandler u r) = true ∧
    precedes Effect.isSpanEnd Effect.isResponseWrite (errorsHandler u r) = false := by
  rw [errorsHandler_accepted u r e hread hdec]
  by_cases hurl : e.RequestURL = ""
  · refine ⟨⟨[Effect.ioReadAll, Effect.jsonUnmarshal r.body,
        Effect.tracerStart "php-errors" "php.exception",
        Effect.spanAddEvent "exception"
          [⟨"exception.type", Value.str e.ErrorClass⟩,
            ⟨"exception.message", Value.str e.Message⟩,
            ⟨"exception.stacktrace", Value.str e.Trace⟩],
        Effect.spanSetAttributes
          [⟨"code.filepath", Value.str e.FilePath⟩, ⟨"code.lineno", Value.int e.Line⟩],
        Effect.spanSetStatus Code.Error (e.ErrorClass ++ ": " ++ e.Message),
        Effect.logInfof ("php error traced: " ++ e.ErrorClass ++ " at " ++ e.FilePath ++ ":"
          ++ toString e.Line)], ?_, ?_⟩, ?_, ?_⟩
    · simp [hurl]
    · simp [Effect.isSpanEnd, Effect.isResponseWrite]
    · simp [hurl, precedes, List.findIdx?_cons, Effect.isSpanEnd, Effect.isResponseWrite]
    · simp [hurl, precedes, List.findIdx?_cons, Effect.isSpanEnd, Effect.isResponseWrite]
  · refine ⟨⟨[Effect.ioReadAll, Effect.jsonUnmarshal r.body,
        Effect.tracerStart "php-errors" "php.exception",
        Effect.spanAddEvent "exception"
          [⟨"exception.type", Value.str e.ErrorClass⟩,
            ⟨"exception.message", Value.str e.Message⟩,
            ⟨"exception.stacktrace", Value.str e.Trace⟩],
        Effect.spanSetAttributes
          [⟨"code.filepath", Value.str e.FilePath⟩, ⟨"code.lineno", Value.int e.Line⟩],
        Effect.spanSetAttributes [⟨"http.url", Value.str e.RequestURL⟩],
        Effect.spanSetStatus Code.Error (e.ErrorClass ++ ": " ++ e.Message),
        Effect.logInfof ("php error traced: " ++ e.ErrorClass ++ " at " ++ e.FilePath ++ ":"
          ++ toString e.Line)], ?_, ?_⟩, ?_, ?_⟩
    · simp [hurl]
    · simp [Effect.isSpanEnd, Effect.isResponseWrite]
    · simp [hurl, precedes, List.findIdx?_cons, Effect.isSpanEnd, Effect.isResponseWrite]
    · simp [hurl, precedes, List.findIdx?_cons, Effect.isSpanEnd, Effect.isResponseWrite]

/-- Witness of the amended C9 on the example body. -/
theorem C9_span_end_after_response_witness :
    (okRequest exampleBody).err = none ∧
      exampleUnmarshal (okRequest exampleBody).body PHPError.zero = (exampleError, none) ∧
      ((∃ pre, errorsHandler exampleUnmarshal (okRequest exampleBody) = pre ++
          [Effect.writeHeader 200, Effect.write "error traced", Effect.spanEnd,
            Effect.bodyClose] ∧
        ∀ x ∈ pre, x.isSpanEnd = false ∧ x.isResponseWrite = false) ∧
      precedes Effect.isResponseWrite Effect.isSpanEnd
        (errorsHandler exampleUnmarshal (okRequest exampleBody)) = true ∧
      precedes Effect.isSpanEnd Effect.isResponseWrite
        (errorsHandler exampleUnmarshal (okRequest exampleBody)) = false) :=
  ⟨rfl, rfl, C9_span_end_after_response exampleUnmarshal (okRequest exampleBody) exampleError rfl rfl⟩

/-- Claim C10: the timestamp is inert: for two accepted reports that differ
only in their timestamp the handler produces the same response and emits the
same span (name, event, attributes and status), and apart from the argument
of the decoding call it makes the same calls. -/
theorem C10_timestamp_inert (u : Unmarshal) (r₁ r₂ : Request) (e : PHPError) (t : Int)
    (hread₁ : r₁.err = none) (hread₂ : r₂.err = none)
    (hdec₁ : u r₁.body PHPError.zero = (e, none))
    (hdec₂ : u r₂.body PHPError.zero = ({ e with Timestamp := t }, none)) :
    response (errorsHandler u r₁) = response (errorsHandler u r₂) ∧
      emittedSpans (errorsHandler u r₁) = emittedSpans (errorsHandler u r₂) ∧
      (errorsHandler u r₁).filter (fun x => !x.isUnmarshal)
        = (errorsHandler u r₂).filter (fun x => !x.isUnmarshal) := by
  refine ⟨?_, ?_, ?_⟩
  · rw [response_accepted u r₁ _ hread₁ hdec₁, response_accepted u r₂ _ hread₂ hdec₂]
  · rw [emittedSpans, emittedSpans, emitFrom_accepted u r₁ _ [] hread₁ hdec₁,
      emitFrom_accepted u r₂ _ [] hread₂ hdec₂]
  · rw [errorsHandler_accepted u r₁ _ hread₁ hdec₁, errorsHandler_accepted u r₂ _ hread₂ hdec₂]
    simp [List.filter_cons, Effect.isUnmarshal]

/-- Witness of C10 on the example body and the later body, with the
timestamps 1700000000 and 1700000001. -/
theorem C10_timestamp_inert_witness :
    (okRequest exampleBody).err = none ∧ (okRequest laterBody).err = none ∧
      exampleUnmarshal (okRequest exampleBody).body PHPError.zero = (exampleError, none) ∧
      exampleUnmarshal (okRequest laterBody).body PHPError.zero
        = ({ exampleError with Timestamp := 1700000001 }, none) ∧
      (response (errorsHandler exampleUnmarshal (okRequest exampleBody))
          = response (errorsHandler exampleUnmarshal (okRequest laterBody)) ∧
        emittedSpans (errorsHandler exampleUnmarshal (okRequest exampleBody))
          = emittedSpans (errorsHandler exampleUnmarshal (okRequest laterBody)) ∧
        (errorsHandler exampleUnmarshal (okRequest exampleBody)).filter (fun x => !x.isUnmarshal)
          = (errorsHandler exampleUnmarshal (okRequest laterBody)).filter
              (fun x => !x.isUnmarshal)) :=
  ⟨rfl, rfl, rfl, rfl,
    C10_timestamp_inert exampleUnmarshal (okRequest exampleBody) (okRequest laterBody) exampleError
      1700000001 rfl rfl rfl rfl⟩

end PhpFpmExporter
